import Mathlib

/-!
Shallow embedding of the LocalInsight review-scheduling and progress-tracking
core (src/modules/db.py, src/modules/repo_documents.py, src/app.py).

Conventions of the embedding:
* SQLite rows become Lean structures; tables become lists of rows inside a `DB`
  record; `datetime('now')` becomes an explicit `now : Int` parameter
  (seconds since epoch), and `'+' || d || ' days'` becomes `now + d * 86400`.
* Python `float` arithmetic on success rates is modelled by exact rational
  arithmetic (`ℚ`), built with `Rat.divInt` so that terms evaluate by `decide`.
* Fallible access returns `Option`; the tenant-guard decorator returns
  `Except TenantError` mirroring the `ValueError` raised by `require_user_id`.
-/

/-- Row of the `documents` table (db.py `init_db`). -/
structure Document where
  id : Nat
  user_id : Int
  filename : String
  content : String
  doc_type : String
  checksum : Option String
  upload_date : Int
  is_processed : Bool
  deriving Repr, DecidableEq

/-- Row of the `summaries` table. -/
structure Summary where
  id : Nat
  user_id : Int
  document_id : Option Nat
  summary_text : String
  created_at : Int
  deriving Repr, DecidableEq

/-- Row of the `flashcards` table. -/
structure Flashcard where
  id : Nat
  user_id : Int
  document_id : Option Nat
  question : String
  answer : String
  difficulty : String
  times_reviewed : Int
  times_correct : Int
  last_reviewed : Option Int
  next_review : Option Int
  created_at : Int
  deriving Repr, DecidableEq

/-- Row of the `quiz_questions` table. -/
structure QuizQuestion where
  id : Nat
  user_id : Int
  document_id : Option Nat
  question_type : String
  question_text : String
  options : String
  correct_answer : String
  explanation : String
  created_at : Int
  deriving Repr, DecidableEq

/-- Row of the `learning_history` table (the autoincrement id column is
immaterial to every claim and is omitted). -/
structure HistoryEvent where
  user_id : Int
  flashcard_id : Option Nat
  quiz_question_id : Option Nat
  result : Option String
  review_date : Int
  deriving Repr, DecidableEq

/-- The persisted store: one list per table touched by the claims. -/
structure DB where
  documents : List Document
  summaries : List Summary
  flashcards : List Flashcard
  quiz_questions : List QuizQuestion
  learning_history : List HistoryEvent
  deriving Repr, DecidableEq

/-- A Python value that may be passed as the `user_id` keyword argument.
`pyNone` is an explicit `None`; a missing keyword is `Option.none` at the
call site of the guard. -/
inductive PyVal where
  | pyNone : PyVal
  | pyInt (n : Int) : PyVal
  | pyStr (s : String) : PyVal
  | pyFloat (num den : Int) : PyVal
  deriving Repr, DecidableEq

/-- The two `ValueError`s raised by `require_user_id` (db.py lines 46-56):
`missingUserId` for `kwargs.get('user_id') is None`, `invalidUserId` for a
non-int or non-positive value (the offending value is carried, standing for
the interpolated message text). -/
inductive TenantError where
  | missingUserId : TenantError
  | invalidUserId (got : PyVal) : TenantError
  deriving Repr, DecidableEq

/-- `require_user_id` decorator (db.py lines 34-58): reads the `user_id`
keyword argument; raises before calling the wrapped function when it is
missing/None, not an int, or ≤ 0; otherwise runs the wrapped data-access
function `f` on the store. -/
def require_user_id {α : Type} (f : Int → DB → DB × α)
    (kw_user_id : Option PyVal) (db : DB) : Except TenantError (DB × α) :=
  match kw_user_id.getD .pyNone with
  | .pyNone => .error .missingUserId
  | .pyInt n => if n ≤ 0 then .error (.invalidUserId (.pyInt n)) else .ok (f n db)
  | .pyStr s => .error (.invalidUserId (.pyStr s))
  | .pyFloat a b => .error (.invalidUserId (.pyFloat a b))

/-- A `user_id` keyword argument is valid exactly when it is a positive int. -/
def validUserId : Option PyVal → Prop
  | some (.pyInt n) => 0 < n
  | _ => False

instance : DecidablePred validUserId := by
  intro kw
  unfold validUserId
  match kw with
  | none => exact inferInstanceAs (Decidable False)
  | some (.pyNone) => exact inferInstanceAs (Decidable False)
  | some (.pyInt n) => exact inferInstanceAs (Decidable (0 < n))
  | some (.pyStr s) => exact inferInstanceAs (Decidable False)
  | some (.pyFloat a b) => exact inferInstanceAs (Decidable False)

/-- `get_document` (repo_documents.py lines 60-75):
`SELECT * FROM documents WHERE id = ? AND user_id = ?`, fetch one. -/
def get_document (db : DB) (document_id : Nat) (user_id : Int) : Option Document :=
  db.documents.find? (fun d => d.id == document_id && d.user_id == user_id)

/-- C2: any guarded data-access operation invoked with a missing, None,
zero, negative, or non-integer `user_id` fails with the tenant error before
touching storage: the result is an `error` and is independent of the wrapped
function and of the entire store contents (so no query ran); with a positive
integer `user_id` the guard does not raise and the wrapped function runs. -/
theorem guard_rejects_invalid_tenant_before_storage {α : Type}
    (f g : Int → DB → DB × α) (kw : Option PyVal) (db db2 : DB) :
    (¬ validUserId kw →
      (∃ e, require_user_id f kw db = .error e) ∧
      require_user_id f kw db = require_user_id g kw db2) ∧
    (∀ n : Int, 0 < n → kw = some (.pyInt n) →
      require_user_id f kw db = .ok (f n db)) := by
  constructor
  · intro hbad
    match kw with
    | none => exact ⟨⟨.missingUserId, rfl⟩, rfl⟩
    | some .pyNone => exact ⟨⟨.missingUserId, rfl⟩, rfl⟩
    | some (.pyStr s) => exact ⟨⟨.invalidUserId (.pyStr s), rfl⟩, rfl⟩
    | some (.pyFloat a b) => exact ⟨⟨.invalidUserId (.pyFloat a b), rfl⟩, rfl⟩
    | some (.pyInt n) =>
      have hn : n ≤ 0 := by
        by_contra hpos
        exact hbad (by simpa [validUserId] using lt_of_not_le hpos)
      refine ⟨⟨.invalidUserId (.pyInt n), ?_⟩, ?_⟩ <;>
        simp [require_user_id, Option.getD, hn]
  · intro n hn hkw
    subst hkw
    simp [require_user_id, Option.getD, not_le.mpr hn]

/-- C2 witness: a string-valued tenant id is rejected identically across two
different wrapped functions and stores, and `user_id = 5` runs the function. -/
theorem guard_rejects_invalid_tenant_before_storage_witness :
    (¬ validUserId (some (.pyStr "x")) ∧
      (∃ e, require_user_id (fun _ db => (db, (0 : Int))) (some (.pyStr "x"))
          ⟨[], [], [], [], []⟩ = .error e)) ∧
    (0 < (5 : Int) ∧
      require_user_id (fun u db => (db, u)) (some (.pyInt 5)) ⟨[], [], [], [], []⟩ =
        .ok (⟨[], [], [], [], []⟩, 5)) := by
  refine ⟨⟨by decide, ?_⟩, by decide, ?_⟩
  · exact ((guard_rejects_invalid_tenant_before_storage
      (fun _ db => (db, (0 : Int))) (fun _ db => (db, (0 : Int)))
      (some (.pyStr "x")) ⟨[], [], [], [], []⟩ ⟨[], [], [], [], []⟩).1 (by decide)).1
  · exact (guard_rejects_invalid_tenant_before_storage
      (fun u db => (db, u)) (fun u db => (db, u))
      (some (.pyInt 5)) ⟨[], [], [], [], []⟩ ⟨[], [], [], [], []⟩).2 5 (by decide) rfl

/-- C4: a lookup of a document that belongs to tenant B, queried under a
different tenant A, returns `none` — the same result as a lookup of an id
that exists under no tenant — never the record itself (the return type
`Option Document` has no separate forbidden/authorization signal). -/
theorem get_document_cross_tenant_not_found (db : DB) (X : Nat) (A B : Int)
    (howner : ∀ d ∈ db.documents, d.id = X → d.user_id = B) (hAB : A ≠ B)
    (Y : Nat) (hY : ∀ d ∈ db.documents, d.id ≠ Y) :
    get_document db X A = none ∧ get_document db X A = get_document db Y A := by
  have h1 : get_document db X A = none := by
    unfold get_document
    rw [List.find?_eq_none]
    intro d hd
    simp only [Bool.and_eq_true, beq_iff_eq, not_and]
    intro hid huser
    exact hAB (huser ▸ (howner d hd hid) ▸ rfl)
  have h2 : get_document db Y A = none := by
    unfold get_document
    rw [List.find?_eq_none]
    intro d hd
    simp only [Bool.and_eq_true, beq_iff_eq, not_and]
    intro hid _
    exact absurd hid (hY d hd)
  exact ⟨h1, h1.trans h2.symm⟩

/-- Example store shared by several witnesses: two tenants (1 and 2), one
document each, flashcards and history events for tenant 1. -/
def exampleDB : DB :=
  { documents :=
      [ { id := 1, user_id := 1, filename := "a.pdf", content := "alpha",
          doc_type := "pdf", checksum := none, upload_date := 100, is_processed := true }
      , { id := 2, user_id := 2, filename := "b.pdf", content := "beta",
          doc_type := "pdf", checksum := none, upload_date := 200, is_processed := false } ]
    summaries :=
      [ { id := 1, user_id := 1, document_id := some 1, summary_text := "s", created_at := 150 } ]
    flashcards :=
      [ { id := 1, user_id := 1, document_id := some 1, question := "q1", answer := "a1",
          difficulty := "orta", times_reviewed := 0, times_correct := 0,
          last_reviewed := none, next_review := none, created_at := 160 }
      , { id := 2, user_id := 1, document_id := some 1, question := "q2", answer := "a2",
          difficulty := "orta", times_reviewed := 4, times_correct := 3,
          last_reviewed := some 500, next_review := some 1000, created_at := 170 } ]
    quiz_questions :=
      [ { id := 1, user_id := 1, document_id := some 1, question_type := "multiple_choice",
          question_text := "qq", options := "x|||y", correct_answer := "x",
          explanation := "", created_at := 180 } ]
    learning_history := [] }

/-- C4 witness: document 2 belongs to tenant 2; tenant 1 sees `none` for it,
exactly as for the unused id 99. -/
theorem get_document_cross_tenant_not_found_witness :
    ((∀ d ∈ exampleDB.documents, d.id = 2 → d.user_id = 2) ∧ (1 : Int) ≠ 2 ∧
      (∀ d ∈ exampleDB.documents, d.id ≠ 99)) ∧
    get_document exampleDB 2 1 = none ∧
    get_document exampleDB 2 1 = get_document exampleDB 99 1 := by
  refine ⟨⟨by simp [exampleDB], by decide, by simp [exampleDB]⟩, ?_⟩
  exact get_document_cross_tenant_not_found exampleDB 2 1 2
    (by simp [exampleDB]) (by decide) 99 (by simp [exampleDB])

/-- Tier selection for a correct outcome (repo_documents.py lines 310-318).
The Python decimals 0.8, 0.6, 0.4 are the exact rationals 8/10, 6/10, 4/10
(float rounding is immaterial at the review counts SQLite can hold). -/
def interval_days_correct (success_rate : ℚ) : Int :=
  if success_rate ≥ Rat.divInt 8 10 then 30
  else if success_rate ≥ Rat.divInt 6 10 then 14
  else if success_rate ≥ Rat.divInt 4 10 then 7
  else 3

/-- Interval choice of `update_flashcard_review` (repo_documents.py lines
308-320): incorrect → 1 day; correct → tier of
`times_correct / times_reviewed if times_reviewed > 0 else 0`. -/
def interval_days (is_correct : Bool) (times_reviewed times_correct : Int) : Int :=
  if is_correct then
    interval_days_correct
      (if 0 < times_reviewed then Rat.divInt times_correct times_reviewed else 0)
  else 1

/-- First statement of the review transaction (repo_documents.py lines
323-330): `UPDATE flashcards SET times_reviewed = ?, times_correct = ?,
last_reviewed = datetime('now'), next_review = datetime('now', '+?days')
WHERE id = ? AND user_id = ?`. -/
def updateFlashcardRow (flashcard_id : Nat) (user_id : Int)
    (times_reviewed times_correct days now : Int) : DB → DB := fun db =>
  { db with flashcards := db.flashcards.map (fun f =>
      if f.id == flashcard_id && f.user_id == user_id then
        { f with times_reviewed := times_reviewed, times_correct := times_correct,
                 last_reviewed := some now, next_review := some (now + days * 86400) }
      else f) }

/-- Second statement of the review transaction (repo_documents.py lines
333-336): `INSERT INTO learning_history (user_id, flashcard_id, result)
VALUES (?, ?, ?)`. -/
def insertHistoryRow (user_id : Int) (flashcard_id : Nat) (is_correct : Bool)
    (now : Int) : DB → DB := fun db =>
  { db with learning_history := db.learning_history ++
      [{ user_id := user_id, flashcard_id := some flashcard_id, quiz_question_id := none,
         result := some (if is_correct then "correct" else "incorrect"),
         review_date := now }] }

/-- Applies buffered statements of one transaction in order. -/
def applyWrites (db : DB) (writes : List (DB → DB)) : DB :=
  writes.foldl (fun d w => w d) db

/-- The two DML statements issued inside the single `with get_db()` block of
`update_flashcard_review`, committed together by the one `conn.commit()`. -/
def reviewTxn (flashcard_id : Nat) (user_id : Int)
    (times_reviewed times_correct days : Int) (is_correct : Bool) (now : Int) :
    List (DB → DB) :=
  [updateFlashcardRow flashcard_id user_id times_reviewed times_correct days now,
   insertHistoryRow user_id flashcard_id is_correct now]

/-- `update_flashcard_review` (repo_documents.py lines 284-339): reads the
card under the tenant filter; on a miss returns False without touching the
store; otherwise bumps the counters, picks the interval, and runs the
two-statement transaction. -/
def update_flashcard_review (db : DB) (flashcard_id : Nat) (is_correct : Bool)
    (user_id : Int) (now : Int) : DB × Bool :=
  match db.flashcards.find? (fun f => f.id == flashcard_id && f.user_id == user_id) with
  | none => (db, false)
  | some card =>
    let times_reviewed := card.times_reviewed + 1
    let times_correct := card.times_correct + (if is_correct then 1 else 0)
    let days := interval_days is_correct times_reviewed times_correct
    (applyWrites db
      (reviewTxn flashcard_id user_id times_reviewed times_correct days is_correct now),
     true)

/-- SQLite transaction semantics for a crash: the statements of `writes` are
buffered inside one transaction, followed by a final commit statement (number
`writes.length + 1`); a crash after `stmts_run` statements rolls everything
back unless the commit itself ran. -/
def persistedAfterCrash (db : DB) (writes : List (DB → DB)) (stmts_run : Nat) : DB :=
  if writes.length < stmts_run then applyWrites db writes else db

/-- Cross-multiplied form of one tier comparison. -/
theorem divInt_tier_iff (a b c r : ℤ) (hb : (0:ℤ) < b) (hr : (0:ℤ) < r) :
    (Rat.divInt a b ≤ Rat.divInt c r) ↔ a * r ≤ c * b :=
  Rat.divInt_le_divInt hb hr

/-- The interval choice, written with integer cross-multiplied tiers. -/
theorem interval_days_eq_tiers (b : Bool) (r c : Int) (hr : 0 < r) :
    interval_days b r c =
      if b then
        if 4 * r ≤ 5 * c then 30
        else if 3 * r ≤ 5 * c then 14
        else if 2 * r ≤ 5 * c then 7
        else 3
      else 1 := by
  cases b with
  | false => rfl
  | true =>
    have h8 : (Rat.divInt c r ≥ Rat.divInt 8 10) ↔ 4 * r ≤ 5 * c := by
      rw [ge_iff_le, divInt_tier_iff 8 10 c r (by norm_num) hr]
      omega
    have h6 : (Rat.divInt c r ≥ Rat.divInt 6 10) ↔ 3 * r ≤ 5 * c := by
      rw [ge_iff_le, divInt_tier_iff 6 10 c r (by norm_num) hr]
      omega
    have h4 : (Rat.divInt c r ≥ Rat.divInt 4 10) ↔ 2 * r ≤ 5 * c := by
      rw [ge_iff_le, divInt_tier_iff 4 10 c r (by norm_num) hr]
      omega
    simp only [interval_days, interval_days_correct, if_pos hr, if_true, h8, h6, h4]

/-- C1: for a flashcard owned by the calling tenant with prior counts (r, c),
`update_flashcard_review` with outcome `o` returns True, appends exactly one
learning-history event recording the outcome, stores the card with
times_reviewed = r+1, times_correct = c+1 on a correct outcome (else c),
last_reviewed = now, and next_review = now plus 1 day on an incorrect outcome
and otherwise 30/14/7/3 days according to whether the new success rate
c'/r' is ≥ 0.8 / ≥ 0.6 / ≥ 0.4 / below 0.4 (the tiers written in
cross-multiplied integer form), leaving every non-matching card in place. -/
theorem update_flashcard_review_spec (db : DB) (fid : Nat) (uid : Int)
    (o : Bool) (now : Int) (card : Flashcard)
    (hfind : db.flashcards.find? (fun f => f.id == fid && f.user_id == uid) = some card)
    (hr : 0 ≤ card.times_reviewed) :
    (update_flashcard_review db fid o uid now).2 = true ∧
    (update_flashcard_review db fid o uid now).1.learning_history =
      db.learning_history ++
        [{ user_id := uid, flashcard_id := some fid, quiz_question_id := none,
           result := some (if o then "correct" else "incorrect"), review_date := now }] ∧
    { card with
        times_reviewed := card.times_reviewed + 1,
        times_correct := card.times_correct + (if o then 1 else 0),
        last_reviewed := some now,
        next_review := some (now +
          (if o then
            if 4 * (card.times_reviewed + 1) ≤ 5 * (card.times_correct + (if o then 1 else 0)) then 30
            else if 3 * (card.times_reviewed + 1) ≤ 5 * (card.times_correct + (if o then 1 else 0)) then 14
            else if 2 * (card.times_reviewed + 1) ≤ 5 * (card.times_correct + (if o then 1 else 0)) then 7
            else 3
          else 1) * 86400) } ∈ (update_flashcard_review db fid o uid now).1.flashcards ∧
    ∀ f ∈ db.flashcards, ¬(f.id = fid ∧ f.user_id = uid) →
      f ∈ (update_flashcard_review db fid o uid now).1.flashcards := by
  have hmem : card ∈ db.flashcards := List.mem_of_find?_eq_some hfind
  have hpid : card.id = fid ∧ card.user_id = uid := by
    have h := List.find?_some hfind
    simp only [Bool.and_eq_true, beq_iff_eq] at h
    exact h
  have hr1 : 0 < card.times_reviewed + 1 := by omega
  have hres : update_flashcard_review db fid o uid now =
      (insertHistoryRow uid fid o now
        (updateFlashcardRow fid uid (card.times_reviewed + 1)
          (card.times_correct + (if o then 1 else 0))
          (interval_days o (card.times_reviewed + 1)
            (card.times_correct + (if o then 1 else 0))) now db), true) := by
    unfold update_flashcard_review
    rw [hfind]
    rfl
  have hflash : (update_flashcard_review db fid o uid now).1.flashcards =
      db.flashcards.map (fun f =>
        if f.id == fid && f.user_id == uid then
          { f with times_reviewed := card.times_reviewed + 1,
                   times_correct := card.times_correct + (if o then 1 else 0),
                   last_reviewed := some now,
                   next_review := some (now +
                     interval_days o (card.times_reviewed + 1)
                       (card.times_correct + (if o then 1 else 0)) * 86400) }
        else f) := by
    rw [hres]
    simp [insertHistoryRow, updateFlashcardRow]
  refine ⟨by rw [hres], ?_, ?_, ?_⟩
  · rw [hres]
    simp [insertHistoryRow, updateFlashcardRow]
  · rw [← interval_days_eq_tiers o (card.times_reviewed + 1)
      (card.times_correct + (if o then 1 else 0)) hr1, hflash]
    have himg :
        (fun f =>
          if f.id == fid && f.user_id == uid then
            { f with times_reviewed := card.times_reviewed + 1,
                     times_correct := card.times_correct + (if o then 1 else 0),
                     last_reviewed := some now,
                     next_review := some (now +
                       interval_days o (card.times_reviewed + 1)
                         (card.times_correct + (if o then 1 else 0)) * 86400) }
          else f) card =
        { card with times_reviewed := card.times_reviewed + 1,
                    times_correct := card.times_correct + (if o then 1 else 0),
                    last_reviewed := some now,
                    next_review := some (now +
                      interval_days o (card.times_reviewed + 1)
                        (card.times_correct + (if o then 1 else 0)) * 86400) } := by
      simp [hpid.1, hpid.2]
    exact himg ▸ List.mem_map_of_mem _ hmem
  · intro f hf hno
    rw [hflash]
    have hcond : (f.id == fid && f.user_id == uid) = false := by
      rw [Bool.and_eq_false_iff]
      by_cases h1 : f.id = fid
      · right
        simp only [beq_eq_false_iff_ne, ne_eq]
        exact fun h2 => hno ⟨h1, h2⟩
      · left
        simp only [beq_eq_false_iff_ne, ne_eq]
        exact h1
    have himg2 :
        (fun g =>
          if g.id == fid && g.user_id == uid then
            { g with times_reviewed := card.times_reviewed + 1,
                     times_correct := card.times_correct + (if o then 1 else 0),
                     last_reviewed := some now,
                     next_review := some (now +
                       interval_days o (card.times_reviewed + 1)
                         (card.times_correct + (if o then 1 else 0)) * 86400) }
          else g) f = f := by
      simp only [hcond, Bool.false_eq_true, if_false]
    exact himg2 ▸ List.mem_map_of_mem _ hf

/-- C1 witness: tenant 1 reviews card 1 (r = 0, c = 0) correctly at
now = 2000; the call returns True, appends one correct event, and the
stored card carries r = 1, c = 1, next_review = now + 30 days
(success rate 1.0 ≥ 0.8). -/
theorem update_flashcard_review_spec_witness :
    (exampleDB.flashcards.find? (fun f => f.id == 1 && f.user_id == 1) =
      some { id := 1, user_id := 1, document_id := some 1, question := "q1",
             answer := "a1", difficulty := "orta", times_reviewed := 0,
             times_correct := 0, last_reviewed := none, next_review := none,
             created_at := 160 }) ∧
    (update_flashcard_review exampleDB 1 true 1 2000).2 = true ∧
    (update_flashcard_review exampleDB 1 true 1 2000).1.learning_history =
      exampleDB.learning_history ++
        [{ user_id := 1, flashcard_id := some 1, quiz_question_id := none,
           result := some "correct", review_date := 2000 }] ∧
    (update_flashcard_review exampleDB 1 true 1 2000).1.flashcards.find?
      (fun f => f.id == 1) =
      some { id := 1, user_id := 1, document_id := some 1, question := "q1",
             answer := "a1", difficulty := "orta", times_reviewed := 1,
             times_correct := 1, last_reviewed := some 2000,
             next_review := some (2000 + 30 * 86400), created_at := 160 } :=
  ⟨by decide,
   (update_flashcard_review_spec exampleDB 1 1 true 2000
      { id := 1, user_id := 1, document_id := some 1, question := "q1",
        answer := "a1", difficulty := "orta", times_reviewed := 0,
        times_correct := 0, last_reviewed := none, next_review := none,
        created_at := 160 } (by decide) (by decide)).1,
   (update_flashcard_review_spec exampleDB 1 1 true 2000
      { id := 1, user_id := 1, document_id := some 1, question := "q1",
        answer := "a1", difficulty := "orta", times_reviewed := 0,
        times_correct := 0, last_reviewed := none, next_review := none,
        created_at := 160 } (by decide) (by decide)).2.1,
   by decide⟩

/-- C10: when no flashcard with the given id belongs to the calling tenant,
`update_flashcard_review` returns False and the store is completely
unchanged — no counters, timestamps, or history rows are written. -/
theorem update_flashcard_review_unowned_noop (db : DB) (fid : Nat) (uid : Int)
    (o : Bool) (now : Int)
    (h : ∀ f ∈ db.flashcards, ¬(f.id = fid ∧ f.user_id = uid)) :
    update_flashcard_review db fid o uid now = (db, false) := by
  have hnone : db.flashcards.find? (fun f => f.id == fid && f.user_id == uid) = none := by
    rw [List.find?_eq_none]
    intro f hf
    simp only [Bool.and_eq_true, beq_iff_eq, not_and]
    exact fun h1 h2 => (h f hf) ⟨h1, h2⟩
  unfold update_flashcard_review
  rw [hnone]

/-- C10 witness: tenant 2 does not own flashcard 2 (it belongs to tenant 1);
the review call under tenant 2 returns False and leaves the store as it was. -/
theorem update_flashcard_review_unowned_noop_witness :
    (∀ f ∈ exampleDB.flashcards, ¬(f.id = 2 ∧ f.user_id = 2)) ∧
    update_flashcard_review exampleDB 2 true 2 500 = (exampleDB, false) :=
  ⟨by simp [exampleDB], update_flashcard_review_unowned_noop exampleDB 2 2 true 500
    (by simp [exampleDB])⟩

/-- C6: the two statements of the review transaction are committed by the
single final commit: whatever the crash point (number of statements that ran,
the commit being the last), the persisted store is either the original one or
exactly the fully-updated result of `update_flashcard_review` — counters can
never be persisted without the matching history event. -/
theorem review_txn_atomic (db : DB) (fid : Nat) (uid : Int) (o : Bool)
    (now : Int) (card : Flashcard) (stmts_run : Nat)
    (hfind : db.flashcards.find? (fun f => f.id == fid && f.user_id == uid) = some card) :
    persistedAfterCrash db
        (reviewTxn fid uid (card.times_reviewed + 1)
          (card.times_correct + (if o then 1 else 0))
          (interval_days o (card.times_reviewed + 1)
            (card.times_correct + (if o then 1 else 0))) o now) stmts_run = db ∨
    persistedAfterCrash db
        (reviewTxn fid uid (card.times_reviewed + 1)
          (card.times_correct + (if o then 1 else 0))
          (interval_days o (card.times_reviewed + 1)
            (card.times_correct + (if o then 1 else 0))) o now) stmts_run =
      (update_flashcard_review db fid o uid now).1 := by
  by_cases hlen :
      (reviewTxn fid uid (card.times_reviewed + 1)
        (card.times_correct + (if o then 1 else 0))
        (interval_days o (card.times_reviewed + 1)
          (card.times_correct + (if o then 1 else 0))) o now).length < stmts_run
  · right
    unfold persistedAfterCrash
    rw [if_pos hlen]
    unfold update_flashcard_review
    rw [hfind]
  · left
    unfold persistedAfterCrash
    rw [if_neg hlen]

/-- C6 witness: reviewing card 1 of tenant 1, a crash after only the UPDATE
statement (1 of 3) persists nothing, and after the commit (3 of 3) persists
the full update; both crash points land in the allowed pair of states. -/
theorem review_txn_atomic_witness :
    (exampleDB.flashcards.find? (fun f => f.id == 1 && f.user_id == 1) =
      some { id := 1, user_id := 1, document_id := some 1, question := "q1",
             answer := "a1", difficulty := "orta", times_reviewed := 0,
             times_correct := 0, last_reviewed := none, next_review := none,
             created_at := 160 }) ∧
    (persistedAfterCrash exampleDB
        (reviewTxn 1 1 (0 + 1) (0 + 1) (interval_days true (0 + 1) (0 + 1)) true 2000) 1 =
        exampleDB ∨
      persistedAfterCrash exampleDB
        (reviewTxn 1 1 (0 + 1) (0 + 1) (interval_days true (0 + 1) (0 + 1)) true 2000) 1 =
        (update_flashcard_review exampleDB 1 true 1 2000).1) ∧
    (persistedAfterCrash exampleDB
        (reviewTxn 1 1 (0 + 1) (0 + 1) (interval_days true (0 + 1) (0 + 1)) true 2000) 3 =
        exampleDB ∨
      persistedAfterCrash exampleDB
        (reviewTxn 1 1 (0 + 1) (0 + 1) (interval_days true (0 + 1) (0 + 1)) true 2000) 3 =
        (update_flashcard_review exampleDB 1 true 1 2000).1) :=
  ⟨by decide,
   review_txn_atomic exampleDB 1 1 true 2000
     { id := 1, user_id := 1, document_id := some 1, question := "q1",
       answer := "a1", difficulty := "orta", times_reviewed := 0,
       times_correct := 0, last_reviewed := none, next_review := none,
       created_at := 160 } 1 (by decide),
   review_txn_atomic exampleDB 1 1 true 2000
     { id := 1, user_id := 1, document_id := some 1, question := "q1",
       answer := "a1", difficulty := "orta", times_reviewed := 0,
       times_correct := 0, last_reviewed := none, next_review := none,
       created_at := 160 } 3 (by decide)⟩

/-- C5: the interval for a correct outcome is a monotone non-decreasing step
function of the updated success rate, with values 3 / 7 / 14 / 30 days on the
tiers [0, 0.4), [0.4, 0.6), [0.6, 0.8), [0.8, ∞), each boundary belonging to
the upper tier (0.4 → 7, 0.6 → 14, 0.8 → 30). -/
theorem correct_interval_monotone_step :
    (∀ s1 s2 : ℚ, s1 ≤ s2 → interval_days_correct s1 ≤ interval_days_correct s2) ∧
    (∀ s : ℚ, 0 ≤ s → s < Rat.divInt 4 10 → interval_days_correct s = 3) ∧
    (∀ s : ℚ, Rat.divInt 4 10 ≤ s → s < Rat.divInt 6 10 → interval_days_correct s = 7) ∧
    (∀ s : ℚ, Rat.divInt 6 10 ≤ s → s < Rat.divInt 8 10 → interval_days_correct s = 14) ∧
    (∀ s : ℚ, Rat.divInt 8 10 ≤ s → interval_days_correct s = 30) := by
  have e8 : Rat.divInt 8 10 = (8 : ℚ) / 10 := Rat.divInt_eq_div 8 10
  have e6 : Rat.divInt 6 10 = (6 : ℚ) / 10 := Rat.divInt_eq_div 6 10
  have e4 : Rat.divInt 4 10 = (4 : ℚ) / 10 := Rat.divInt_eq_div 4 10
  refine ⟨?_, ?_, ?_, ?_, ?_⟩
  · intro s1 s2 h
    unfold interval_days_correct
    rw [e8, e6, e4]
    split_ifs <;> linarith
  · intro s h0 h4
    rw [e4] at h4
    unfold interval_days_correct
    rw [e8, e6, e4]
    split_ifs <;> linarith
  · intro s h4 h6
    rw [e4] at h4
    rw [e6] at h6
    unfold interval_days_correct
    rw [e8, e6, e4]
    split_ifs <;> linarith
  · intro s h6 h8
    rw [e6] at h6
    rw [e8] at h8
    unfold interval_days_correct
    rw [e8, e6, e4]
    split_ifs <;> linarith
  · intro s h8
    rw [e8] at h8
    unfold interval_days_correct
    rw [e8, e6, e4]
    split_ifs <;> linarith

/-- C5 witness: the boundary rates 0.4, 0.6, 0.8 give 7, 14, 30 days, the
rate 0.2 gives 3 days, and monotonicity holds across 0.2 ≤ 0.9. -/
theorem correct_interval_monotone_step_witness :
    ((0:ℚ) ≤ Rat.divInt 2 10 ∧ Rat.divInt 2 10 < Rat.divInt 4 10 ∧
      interval_days_correct (Rat.divInt 2 10) = 3) ∧
    (Rat.divInt 4 10 ≤ Rat.divInt 4 10 ∧ Rat.divInt 4 10 < Rat.divInt 6 10 ∧
      interval_days_correct (Rat.divInt 4 10) = 7) ∧
    (Rat.divInt 6 10 ≤ Rat.divInt 6 10 ∧ Rat.divInt 6 10 < Rat.divInt 8 10 ∧
      interval_days_correct (Rat.divInt 6 10) = 14) ∧
    (Rat.divInt 8 10 ≤ Rat.divInt 8 10 ∧
      interval_days_correct (Rat.divInt 8 10) = 30) ∧
    (Rat.divInt 2 10 ≤ Rat.divInt 9 10 ∧
      interval_days_correct (Rat.divInt 2 10) ≤ interval_days_correct (Rat.divInt 9 10)) :=
  ⟨⟨by decide, by decide,
     correct_interval_monotone_step.2.1 (Rat.divInt 2 10) (by decide) (by decide)⟩,
   ⟨by decide, by decide,
     correct_interval_monotone_step.2.2.1 (Rat.divInt 4 10) (by decide) (by decide)⟩,
   ⟨by decide, by decide,
     correct_interval_monotone_step.2.2.2.1 (Rat.divInt 6 10) (by decide) (by decide)⟩,
   ⟨by decide,
     correct_interval_monotone_step.2.2.2.2 (Rat.divInt 8 10) (by decide)⟩,
   ⟨by decide,
     correct_interval_monotone_step.1 (Rat.divInt 2 10) (Rat.divInt 9 10) (by decide)⟩⟩

instance : DecidableRel (fun a b : Flashcard => a.times_reviewed ≤ b.times_reviewed) :=
  fun a b => Int.decLe a.times_reviewed b.times_reviewed

instance : DecidableRel (fun a b : Flashcard => b.created_at ≤ a.created_at) :=
  fun a b => Int.decLe b.created_at a.created_at

instance : DecidableRel (fun a b : Summary => b.created_at ≤ a.created_at) :=
  fun a b => Int.decLe b.created_at a.created_at

instance : DecidableRel (fun a b : QuizQuestion => b.created_at ≤ a.created_at) :=
  fun a b => Int.decLe b.created_at a.created_at

/-- Due predicate of the review query:
`next_review IS NULL OR next_review <= datetime('now')`. -/
def isDue (f : Flashcard) (now : Int) : Bool :=
  match f.next_review with
  | none => true
  | some t => decide (t ≤ now)

/-- `get_flashcards_for_review` (repo_documents.py lines 260-280): the
tenant's due cards, `ORDER BY times_reviewed ASC, RANDOM()` (the random
tiebreak is modelled by the stable sort order; the LEFT JOIN only adds the
filename column), `LIMIT ?`. -/
def get_flashcards_for_review (db : DB) (user_id : Int) (limit : Nat) (now : Int) :
    List Flashcard :=
  (((db.flashcards.filter (fun f => f.user_id == user_id && isDue f now)).insertionSort
      (fun a b => a.times_reviewed ≤ b.times_reviewed)).take limit)

/-- C3: every flashcard returned by the due-set query belongs to the queried
tenant and is due — its `next_review` is absent or is ≤ the query time; a
card whose `next_review` lies strictly in the future is never returned. -/
theorem get_flashcards_for_review_only_due (db : DB) (uid : Int) (limit : Nat)
    (now : Int) (f : Flashcard)
    (hf : f ∈ get_flashcards_for_review db uid limit now) :
    f.user_id = uid ∧
    (f.next_review = none ∨ ∃ t, f.next_review = some t ∧ t ≤ now) := by
  have h1 : f ∈ db.flashcards.filter (fun f => f.user_id == uid && isDue f now) :=
    (List.perm_insertionSort
      (fun a b : Flashcard => a.times_reviewed ≤ b.times_reviewed) _).mem_iff.mp
      (List.mem_of_mem_take hf)
  have h3 := List.of_mem_filter h1
  simp only [Bool.and_eq_true, beq_iff_eq] at h3
  refine ⟨h3.1, ?_⟩
  rcases hnr : f.next_review with _ | t
  · exact Or.inl rfl
  · right
    refine ⟨t, rfl, ?_⟩
    have h4 := h3.2
    unfold isDue at h4
    rw [hnr] at h4
    exact of_decide_eq_true h4

/-- C3 witness: at query time 1000 the due set of tenant 1 contains card 2
(next_review = 1000 ≤ 1000), and the theorem certifies it is owned and due. -/
theorem get_flashcards_for_review_only_due_witness :
    ({ id := 2, user_id := 1, document_id := some 1, question := "q2", answer := "a2",
       difficulty := "orta", times_reviewed := 4, times_correct := 3,
       last_reviewed := some 500, next_review := some 1000, created_at := 170
       : Flashcard } ∈ get_flashcards_for_review exampleDB 1 10 1000) ∧
    ((1 : Int) = 1 ∧
      ((some 1000 : Option Int) = none ∨
        ∃ t, (some 1000 : Option Int) = some t ∧ t ≤ 1000)) :=
  ⟨by decide,
   get_flashcards_for_review_only_due exampleDB 1 10 1000
     { id := 2, user_id := 1, document_id := some 1, question := "q2", answer := "a2",
       difficulty := "orta", times_reviewed := 4, times_correct := 3,
       last_reviewed := some 500, next_review := some 1000, created_at := 170 }
     (by decide)⟩

/-- Exact model of Python's built-in `round` (banker's rounding, ties to
even) on a rational: the fractional part is compared to 1/2 through the
integer `2*(q - floor q)*den` so the definition evaluates in the kernel. -/
def pyRound (q : ℚ) : Int :=
  let f := q.floor
  let twiceFracNum := 2 * q.num - 2 * f * (q.den : Int)
  if twiceFracNum < (q.den : Int) then f
  else if (q.den : Int) < twiceFracNum then f + 1
  else if f % 2 = 0 then f else f + 1

/-- Python `round(x, 1)`: one decimal place; `x * 10` is formed as
`divInt (10 * num) den` so the term evaluates in the kernel. -/
def py_round1 (q : ℚ) : ℚ :=
  Rat.divInt (pyRound (Rat.divInt (10 * q.num) (q.den : Int))) 10

/-- Return shape of `get_learning_stats`. -/
structure LearningStats where
  total_documents : Nat
  total_flashcards : Nat
  total_questions : Nat
  cards_reviewed_today : Nat
  success_rate : ℚ
  deriving Repr, DecidableEq

/-- `get_learning_stats` (repo_documents.py lines 503-547). The success-rate
query `COUNT(CASE WHEN result = 'correct' THEN 1 END) * 100.0 / COUNT(*)
... WHERE user_id = ? AND result IS NOT NULL` yields SQL NULL (`none`) when
no row matches; Python then evaluates `round(result, 1) if result else 0`,
which maps both NULL and a 0.0 ratio to 0. `date(review_date) = date('now')`
is modelled by equality of the 86400-second day bucket. -/
def get_learning_stats (db : DB) (user_id : Int) (now : Int) : LearningStats :=
  let evs := db.learning_history.filter (fun e => e.user_id == user_id && e.result.isSome)
  let raw : Option ℚ :=
    if evs.length = 0 then none
    else some (Rat.divInt
      (100 * ((evs.filter (fun e => e.result == some "correct")).length : Int))
      (evs.length : Int))
  { total_documents := (db.documents.filter (fun d => d.user_id == user_id)).length
    total_flashcards := (db.flashcards.filter (fun f => f.user_id == user_id)).length
    total_questions := (db.quiz_questions.filter (fun q => q.user_id == user_id)).length
    cards_reviewed_today := (db.learning_history.filter
      (fun e => e.user_id == user_id && e.flashcard_id.isSome &&
        e.review_date / 86400 == now / 86400)).length
    success_rate :=
      match raw with
      | none => 0
      | some x => if x = 0 then 0 else py_round1 x }

theorem py_round1_zero : py_round1 0 = 0 := by decide

/-- C7: with zero history events for the tenant, `get_learning_stats`
returns success_rate = 0 (it is a total function — no error is possible);
with events present, success_rate is the percentage of all of the tenant's
history events (flashcard and quiz combined) whose result is correct,
rounded to one decimal place. -/
theorem get_learning_stats_success_rate (db : DB) (uid : Int) (now : Int) :
    ((db.learning_history.filter (fun e => e.user_id == uid && e.result.isSome)).length = 0 →
      (get_learning_stats db uid now).success_rate = 0) ∧
    ((db.learning_history.filter (fun e => e.user_id == uid && e.result.isSome)).length ≠ 0 →
      (get_learning_stats db uid now).success_rate =
        py_round1 (Rat.divInt
          (100 * (((db.learning_history.filter
              (fun e => e.user_id == uid && e.result.isSome)).filter
                (fun e => e.result == some "correct")).length : Int))
          ((db.learning_history.filter
              (fun e => e.user_id == uid && e.result.isSome)).length : Int))) := by
  constructor
  · intro h0
    unfold get_learning_stats
    simp [h0]
  · intro hn
    unfold get_learning_stats
    simp only [if_neg hn]
    set x := Rat.divInt
      (100 * (((db.learning_history.filter
          (fun e => e.user_id == uid && e.result.isSome)).filter
            (fun e => e.result == some "correct")).length : Int))
      ((db.learning_history.filter
          (fun e => e.user_id == uid && e.result.isSome)).length : Int) with hx
    by_cases hzero : x = 0
    · rw [if_pos hzero, hzero, py_round1_zero]
    · rw [if_neg hzero]

/-- Store with review history for the C7 witness: tenant 1 has 10 correct
events (from flashcards) and 5 incorrect events (from quiz questions). -/
def exampleDB2 : DB :=
  { exampleDB with
      learning_history :=
        List.replicate 10
          { user_id := 1, flashcard_id := some 1, quiz_question_id := none,
            result := some "correct", review_date := 100 } ++
        List.replicate 5
          { user_id := 1, flashcard_id := none, quiz_question_id := some 1,
            result := some "incorrect", review_date := 100 } }

/-- C7 witness: tenant 2 has zero events and gets success_rate = 0; tenant 1
has 10 correct / 5 incorrect events and gets 66.7 (= 667/10). -/
theorem get_learning_stats_success_rate_witness :
    ((exampleDB2.learning_history.filter
        (fun e => e.user_id == 2 && e.result.isSome)).length = 0 ∧
      (get_learning_stats exampleDB2 2 0).success_rate = 0) ∧
    ((exampleDB2.learning_history.filter
        (fun e => e.user_id == 1 && e.result.isSome)).length ≠ 0 ∧
      (get_learning_stats exampleDB2 1 0).success_rate = Rat.divInt 667 10) :=
  ⟨⟨by decide,
    (get_learning_stats_success_rate exampleDB2 2 0).1 (by decide)⟩,
   ⟨by decide, by
    rw [(get_learning_stats_success_rate exampleDB2 1 0).2 (by decide)]
    decide⟩⟩

/-- Python truthiness of the optional `document_id` argument:
`if document_id:` is false both for None and for 0. -/
def truthyDocId : Option Nat → Bool
  | none => false
  | some d => d != 0

/-- `get_flashcards` (repo_documents.py lines 224-257): tenant filter,
optional document filter, `ORDER BY created_at DESC` (the LEFT JOIN only
adds the filename column), LIMIT. -/
def get_flashcards (db : DB) (user_id : Int) (document_id : Option Nat)
    (limit : Nat) : List Flashcard :=
  (if truthyDocId document_id then
      db.flashcards.filter (fun f => f.user_id == user_id && f.document_id == document_id)
    else
      db.flashcards.filter (fun f => f.user_id == user_id)).insertionSort
    (fun a b => b.created_at ≤ a.created_at) |>.take limit

/-- `get_quiz_questions` (repo_documents.py lines 412-445): same shape as
`get_flashcards`. -/
def get_quiz_questions (db : DB) (user_id : Int) (document_id : Option Nat)
    (limit : Nat) : List QuizQuestion :=
  (if truthyDocId document_id then
      db.quiz_questions.filter (fun q => q.user_id == user_id && q.document_id == document_id)
    else
      db.quiz_questions.filter (fun q => q.user_id == user_id)).insertionSort
    (fun a b => b.created_at ≤ a.created_at) |>.take limit

/-- `get_summaries` (repo_documents.py lines 142-173): tenant filter,
optional document filter, and the inner `JOIN documents d ON s.document_id
= d.id` (document ids are the primary key, so the join amounts to an
existence filter), `ORDER BY created_at DESC`, LIMIT. -/
def get_summaries (db : DB) (user_id : Int) (document_id : Option Nat)
    (limit : Nat) : List Summary :=
  (if truthyDocId document_id then
      db.summaries.filter (fun s => s.user_id == user_id && s.document_id == document_id &&
        db.documents.any (fun d => s.document_id == some d.id))
    else
      db.summaries.filter (fun s => s.user_id == user_id &&
        db.documents.any (fun d => s.document_id == some d.id))).insertionSort
    (fun a b => b.created_at ≤ a.created_at) |>.take limit

/-- `delete_document` (repo_documents.py lines 78-95): `DELETE FROM
documents WHERE id = ? AND user_id = ?`, returning `rowcount > 0`; the
`ON DELETE CASCADE` foreign keys of summaries/flashcards/quiz_questions
(db.py `init_db`, with `PRAGMA foreign_keys = ON` set in `get_db`) remove
every dependent row of the deleted document — ids are the primary key, so
the cascaded children are exactly the rows with that `document_id`. -/
def delete_document (db : DB) (document_id : Nat) (user_id : Int) : DB × Bool :=
  if db.documents.any (fun d => d.id == document_id && d.user_id == user_id) then
    ({ db with
        documents := db.documents.filter
          (fun d => !(d.id == document_id && d.user_id == user_id)),
        summaries := db.summaries.filter (fun s => s.document_id != some document_id),
        flashcards := db.flashcards.filter (fun f => f.document_id != some document_id),
        quiz_questions := db.quiz_questions.filter
          (fun q => q.document_id != some document_id) },
     true)
  else (db, false)

/-- Members of a listing (filter branches, sort, take) come from the table. -/
theorem mem_of_mem_listing {α : Type} (c : Bool) (l : List α) (p1 p2 : α → Bool)
    (r : α → α → Prop) [DecidableRel r] (n : Nat) (a : α)
    (ha : a ∈ ((if c then l.filter p1 else l.filter p2).insertionSort r).take n) :
    a ∈ l := by
  have h1 := (List.perm_insertionSort r _).mem_iff.mp (List.mem_of_mem_take ha)
  cases c with
  | false => exact List.mem_of_mem_filter (by simpa using h1)
  | true => exact List.mem_of_mem_filter (by simpa using h1)

/-- C8: once `delete_document` succeeds for a tenant's document, no
flashcard, quiz question, or summary of that document appears in any
subsequent listing call (any document filter, any limit): the cascade
removed every dependent row from storage. -/
theorem delete_document_cascades (db : DB) (docid : Nat) (uid : Int)
    (dfilter : Option Nat) (limit : Nat)
    (hsucc : (delete_document db docid uid).2 = true) :
    (∀ f ∈ get_flashcards (delete_document db docid uid).1 uid dfilter limit,
        f.document_id ≠ some docid) ∧
    (∀ q ∈ get_quiz_questions (delete_document db docid uid).1 uid dfilter limit,
        q.document_id ≠ some docid) ∧
    (∀ s ∈ get_summaries (delete_document db docid uid).1 uid dfilter limit,
        s.document_id ≠ some docid) := by
  have hhit : db.documents.any (fun d => d.id == docid && d.user_id == uid) = true := by
    by_contra hno
    rw [Bool.not_eq_true] at hno
    unfold delete_document at hsucc
    rw [hno] at hsucc
    simp at hsucc
  have hdb : (delete_document db docid uid).1 =
      { db with
          documents := db.documents.filter
            (fun d => !(d.id == docid && d.user_id == uid)),
          summaries := db.summaries.filter (fun s => s.document_id != some docid),
          flashcards := db.flashcards.filter (fun f => f.document_id != some docid),
          quiz_questions := db.quiz_questions.filter
            (fun q => q.document_id != some docid) } := by
    unfold delete_document
    rw [hhit]
    rfl
  refine ⟨?_, ?_, ?_⟩
  · intro f hf
    rw [hdb] at hf
    unfold get_flashcards at hf
    have h1 := mem_of_mem_listing _ _ _ _ _ _ _ hf
    have h2 := List.of_mem_filter h1
    simpa using h2
  · intro q hq
    rw [hdb] at hq
    unfold get_quiz_questions at hq
    have h1 := mem_of_mem_listing _ _ _ _ _ _ _ hq
    have h2 := List.of_mem_filter h1
    simpa using h2
  · intro s hs
    rw [hdb] at hs
    unfold get_summaries at hs
    have h1 := mem_of_mem_listing _ _ _ _ _ _ _ hs
    have h2 := List.of_mem_filter h1
    simpa using h2

/-- C8 witness: deleting document 1 of tenant 1 succeeds; afterwards the
flashcard/quiz/summary listings of tenant 1 contain nothing of document 1
(here they are in fact empty, as all of tenant 1's material came from it). -/
theorem delete_document_cascades_witness :
    (delete_document exampleDB 1 1).2 = true ∧
    (∀ f ∈ get_flashcards (delete_document exampleDB 1 1).1 1 none 100,
        f.document_id ≠ some 1) ∧
    get_flashcards (delete_document exampleDB 1 1).1 1 none 100 = [] ∧
    get_quiz_questions (delete_document exampleDB 1 1).1 1 none 100 = [] ∧
    get_summaries (delete_document exampleDB 1 1).1 1 none 50 = [] :=
  ⟨by decide,
   (delete_document_cascades exampleDB 1 1 none 100 (by decide)).1,
   by decide, by decide, by decide⟩

/-- `st.session_state.quiz_state` (app.py lines 683-689). -/
structure QuizSessionState where
  active : Bool
  questions : List QuizQuestion
  current_index : Nat
  score : Nat
  answered : Bool
  deriving Repr, DecidableEq

/-- State installed on first render of the quiz tab. -/
def initial_quiz_state : QuizSessionState :=
  { active := false, questions := [], current_index := 0, score := 0, answered := false }

/-- Quiz-start branch of `render_quiz_tab` (app.py lines 707-720): the
fetched random question set is bound to the session only when it is
non-empty (`if questions:`); an empty fetch leaves the state untouched and
raises nothing. -/
def start_quiz (state : QuizSessionState) (fetched : List QuizQuestion) :
    QuizSessionState :=
  if fetched.isEmpty then state
  else
    { active := true, questions := fetched, current_index := 0, score := 0,
      answered := false }

/-- `st.session_state.fc_state` (app.py line 787); the dict key named show
is a Lean keyword and becomes `shown`. -/
structure FlashcardSessionState where
  active : Bool
  cards : List Flashcard
  idx : Nat
  shown : Bool
  deriving Repr, DecidableEq

/-- State installed on first render of the flashcard tab. -/
def initial_fc_state : FlashcardSessionState :=
  { active := false, cards := [], idx := 0, shown := false }

/-- Flashcard-start branch of `render_flashcard_tab` (app.py lines
796-809): the start button is only rendered when `review_cards` is
non-empty (`if review_cards:`) — an empty due set shows an info message and
the state stays inactive; otherwise the session starts on the first `count`
cards. -/
def start_flashcards (state : FlashcardSessionState)
    (review_cards : List Flashcard) (count : Nat) : FlashcardSessionState :=
  if review_cards.isEmpty then state
  else { active := true, cards := review_cards.take count, idx := 0, shown := false }

/-- C9 counterexample: starting a study session on an empty fetched set does
not fail with a `NoItemsAvailable` (or any) error — both start operations
are total functions on the session state, and on the empty set they return
the unchanged, still-inactive state: the code silently skips the quiz-start
branch and shows an info message in the flashcard tab instead of raising. -/
theorem start_empty_session_returns_inactive_state :
    start_quiz initial_quiz_state [] = initial_quiz_state ∧
    (start_quiz initial_quiz_state []).active = false ∧
    start_flashcards initial_fc_state [] 10 = initial_fc_state ∧
    (start_flashcards initial_fc_state [] 10).active = false := by
  decide

/-- C9 amended: a session is never started with zero items — on an empty
fetched set the state is returned unchanged (inactive), with no error value
in the return type — and on a non-empty fetch the quiz session begins
active at index 0 with score 0, and the flashcard session begins active at
index 0 with the answer hidden. -/
theorem start_session_never_empty_begins_at_zero
    (qs : QuizSessionState) (fetched_q : List QuizQuestion)
    (fs : FlashcardSessionState) (fetched_f : List Flashcard) (count : Nat) :
    (fetched_q = [] → start_quiz qs fetched_q = qs) ∧
    (fetched_q ≠ [] →
      (start_quiz qs fetched_q).active = true ∧
      (start_quiz qs fetched_q).current_index = 0 ∧
      (start_quiz qs fetched_q).score = 0 ∧
      (start_quiz qs fetched_q).questions = fetched_q) ∧
    (fetched_f = [] → start_flashcards fs fetched_f count = fs) ∧
    (fetched_f ≠ [] →
      (start_flashcards fs fetched_f count).active = true ∧
      (start_flashcards fs fetched_f count).idx = 0 ∧
      (start_flashcards fs fetched_f count).shown = false ∧
      (start_flashcards fs fetched_f count).cards = fetched_f.take count) := by
  refine ⟨?_, ?_, ?_, ?_⟩
  · intro h
    subst h
    rfl
  · intro h
    unfold start_quiz
    rw [if_neg (by simpa [List.isEmpty_iff] using h)]
    exact ⟨rfl, rfl, rfl, rfl⟩
  · intro h
    subst h
    rfl
  · intro h
    unfold start_flashcards
    rw [if_neg (by simpa [List.isEmpty_iff] using h)]
    exact ⟨rfl, rfl, rfl, rfl⟩

/-- C9 amended witness: the empty fetch leaves both sessions inactive, and a
one-question quiz fetch / one-card flashcard fetch starts at index 0 with
score 0. -/
theorem start_session_never_empty_begins_at_zero_witness :
    (([] : List QuizQuestion) = [] ∧
      start_quiz initial_quiz_state [] = initial_quiz_state) ∧
    (exampleDB.quiz_questions ≠ [] ∧
      (start_quiz initial_quiz_state exampleDB.quiz_questions).active = true ∧
      (start_quiz initial_quiz_state exampleDB.quiz_questions).current_index = 0 ∧
      (start_quiz initial_quiz_state exampleDB.quiz_questions).score = 0) ∧
    (exampleDB.flashcards ≠ [] ∧
      (start_flashcards initial_fc_state exampleDB.flashcards 1).active = true ∧
      (start_flashcards initial_fc_state exampleDB.flashcards 1).idx = 0) :=
  ⟨⟨rfl,
    (start_session_never_empty_begins_at_zero initial_quiz_state []
      initial_fc_state [] 1).1 rfl⟩,
   ⟨by decide,
    ((start_session_never_empty_begins_at_zero initial_quiz_state
        exampleDB.quiz_questions initial_fc_state exampleDB.flashcards 1).2.1
      (by decide)).1,
    ((start_session_never_empty_begins_at_zero initial_quiz_state
        exampleDB.quiz_questions initial_fc_state exampleDB.flashcards 1).2.1
      (by decide)).2.1,
    ((start_session_never_empty_begins_at_zero initial_quiz_state
        exampleDB.quiz_questions initial_fc_state exampleDB.flashcards 1).2.1
      (by decide)).2.2.1⟩,
   ⟨by decide,
    ((start_session_never_empty_begins_at_zero initial_quiz_state
        exampleDB.quiz_questions initial_fc_state exampleDB.flashcards 1).2.2.2
      (by decide)).1,
    ((start_session_never_empty_begins_at_zero initial_quiz_state
        exampleDB.quiz_questions initial_fc_state exampleDB.flashcards 1).2.2.2
      (by decide)).2.1⟩⟩
